import Mathlib

/-!
Verification of the GR Cup analytics frontend (gr-cup-analytics).

The analytics computations that live in the repository's sources are embedded
here as Lean functions over exact rationals (JavaScript numbers are modelled
by `ℚ`; a `null`/`undefined` value is modelled by `Option`):

* the per-driver lap statistics of `loadRaceOverview` in the Dashboard
  component (`frontend/src/components/DriverAnalysis.jsx`, concatenated file);
* the racing-line coordinate pipeline `currentLineCoords` / `optimalLineCoords`
  of `DriverAnalysis.jsx`;
* the comparison guard `handleCompare` of `DriverAnalysis.jsx`;
* the strategy boundary (`calculateStrategy` and the input handlers) of
  `StrategyCalculator.jsx`;
* the chart synthesis `lapTimesData` of the Dashboard's `DriverView`
  (`Math.random()` is modelled by an explicit stream `Nat → ℚ` of draws);
* the three `formatLapTime` helpers.

The backend comparison engine is not among the sources; where a claim is
decided by it, the engine is modelled from the specification and the
definition says so in its doc comment.
-/

namespace GrCup

/-- A lap record as consumed by `loadRaceOverview`: only its `time` field
(`l.time`, seconds) is used by the statistics. -/
structure LapRecord where
  time : ℚ

/-- `laps.map(l => l.time).filter(t => t > 0)` from `loadRaceOverview`
(Dashboard component in `DriverAnalysis.jsx`). -/
def lapTimes (laps : List LapRecord) : List ℚ :=
  (laps.map fun l => l.time).filter fun t => decide (0 < t)

/-- `Math.min(...xs)` over a spread list; the empty spread yields JavaScript
`Infinity`, modelled as `none`. -/
def mathMin : List ℚ → Option ℚ
  | [] => none
  | t :: ts => some (ts.foldl min t)

/-- `bestLap: Math.min(...lapTimes)` from `loadRaceOverview`, guarded by
`lapTimes.length > 0` (no valid lap yields no row, modelled as `none`). -/
def bestLap (laps : List LapRecord) : Option ℚ :=
  mathMin (lapTimes laps)

/-- `avgLap: lapTimes.reduce((a, b) => a + b, 0) / lapTimes.length` from
`loadRaceOverview`, guarded by `lapTimes.length > 0`. -/
def averageLap (laps : List LapRecord) : Option ℚ :=
  match lapTimes laps with
  | [] => none
  | t :: ts => some ((t :: ts).sum / ((t :: ts).length : ℚ))

lemma foldl_min_le_init (ts : List ℚ) (t : ℚ) : ts.foldl min t ≤ t := by
  induction ts generalizing t with
  | nil => simp
  | cons x xs ih => exact le_trans (ih (min t x)) (min_le_left t x)

lemma foldl_min_le_mem (ts : List ℚ) (t x : ℚ) (hx : x ∈ ts) :
    ts.foldl min t ≤ x := by
  induction ts generalizing t with
  | nil => cases hx
  | cons y ys ih =>
    rcases List.mem_cons.mp hx with rfl | hmem
    · exact le_trans (foldl_min_le_init ys (min t x)) (min_le_right t x)
    · exact ih _ hmem

lemma foldl_min_mem (ts : List ℚ) (t : ℚ) : ts.foldl min t ∈ t :: ts := by
  induction ts generalizing t with
  | nil => simp
  | cons x xs ih =>
    have h := ih (min t x)
    simp only [List.foldl_cons]
    rcases List.mem_cons.mp h with h1 | h2
    · rcases min_choice t x with hm | hm
      · rw [h1, hm]; exact List.mem_cons_self t (x :: xs)
      · rw [h1, hm]
        exact List.mem_cons_of_mem t (List.mem_cons_self x xs)
    · exact List.mem_cons_of_mem t (List.mem_cons_of_mem x h2)

lemma mul_length_le_sum (l : List ℚ) (m : ℚ) (h : ∀ x ∈ l, m ≤ x) :
    m * (l.length : ℚ) ≤ l.sum := by
  induction l with
  | nil => simp
  | cons x xs ih =>
    have hx : m ≤ x := h x (List.mem_cons_self x xs)
    have hxs : m * (xs.length : ℚ) ≤ xs.sum :=
      ih fun y hy => h y (List.mem_cons_of_mem x hy)
    simp only [List.sum_cons, List.length_cons]
    push_cast
    nlinarith [hx, hxs]

/-- C1: for every lap sequence with at least one strictly positive lap time,
`loadRaceOverview` computes the best lap as the minimum of the valid
(`t > 0`) lap times and the average lap as the arithmetic mean of those same
valid lap times; consequently the best lap is at most the average lap and at
most every valid lap time of the sequence. -/
theorem C1_best_and_average_lap (laps : List LapRecord)
    (h : ∃ l ∈ laps, 0 < l.time) :
    ∃ b a, bestLap laps = some b ∧ averageLap laps = some a ∧
      b ∈ lapTimes laps ∧
      (∀ t ∈ lapTimes laps, b ≤ t) ∧
      a = (lapTimes laps).sum / ((lapTimes laps).length : ℚ) ∧
      b ≤ a ∧
      (∀ l ∈ laps, 0 < l.time → b ≤ l.time) := by
  obtain ⟨l0, hl0mem, hl0pos⟩ := h
  have hvalid : l0.time ∈ lapTimes laps := by
    unfold lapTimes
    refine List.mem_filter.mpr ⟨List.mem_map.mpr ⟨l0, hl0mem, rfl⟩, ?_⟩
    exact decide_eq_true hl0pos
  have hmemlt : ∀ t ∈ lapTimes laps, 0 < t := by
    intro t ht
    exact of_decide_eq_true (List.mem_filter.mp ht).2
  cases hv : lapTimes laps with
  | nil => rw [hv] at hvalid; cases hvalid
  | cons v vs =>
    refine ⟨vs.foldl min v, (v :: vs).sum / ((v :: vs).length : ℚ),
      ?_, ?_, ?_, ?_, ?_, ?_, ?_⟩
    · rw [bestLap, hv]; rfl
    · rw [averageLap.eq_def, hv]
    · exact foldl_min_mem vs v
    · intro t ht
      rcases List.mem_cons.mp ht with rfl | hmem
      · exact foldl_min_le_init vs t
      · exact foldl_min_le_mem vs v t hmem
    · rfl
    · have hb : ∀ x ∈ v :: vs, vs.foldl min v ≤ x := by
        intro x hx
        rcases List.mem_cons.mp hx with rfl | hmem
        · exact foldl_min_le_init vs x
        · exact foldl_min_le_mem vs v x hmem
      have hlen : (0 : ℚ) < ((v :: vs).length : ℚ) := by
        simp only [List.length_cons]
        push_cast
        positivity
      rw [le_div_iff₀ hlen]
      exact mul_length_le_sum (v :: vs) (vs.foldl min v) hb
    · intro l hl hlpos
      have : l.time ∈ lapTimes laps := by
        unfold lapTimes
        refine List.mem_filter.mpr ⟨List.mem_map.mpr ⟨l, hl, rfl⟩, ?_⟩
        exact decide_eq_true hlpos
      rw [hv] at this
      rcases List.mem_cons.mp this with heq | hmem
      · rw [heq]; exact foldl_min_le_init vs v
      · exact foldl_min_le_mem vs v l.time hmem

theorem C1_best_and_average_lap_witness :
    (∃ l ∈ [LapRecord.mk (193/2)], 0 < l.time) ∧
      ∃ b a, bestLap [LapRecord.mk (193/2)] = some b ∧
        averageLap [LapRecord.mk (193/2)] = some a ∧
        b ∈ lapTimes [LapRecord.mk (193/2)] ∧
        (∀ t ∈ lapTimes [LapRecord.mk (193/2)], b ≤ t) ∧
        a = (lapTimes [LapRecord.mk (193/2)]).sum /
          ((lapTimes [LapRecord.mk (193/2)]).length : ℚ) ∧
        b ≤ a ∧
        (∀ l ∈ [LapRecord.mk (193/2)], 0 < l.time → b ≤ l.time) :=
  ⟨⟨LapRecord.mk (193/2), by simp, by norm_num⟩,
    C1_best_and_average_lap [LapRecord.mk (193/2)]
      ⟨LapRecord.mk (193/2), by simp, by norm_num⟩⟩

/-- C2: the claim that on laps `[96.5, 96.8, 97.0, 400.2]` the average is
computed only over the first three laps fails on the code: the validity filter
is `t > 0`, which `400.2` passes, so the computed average is
`(96.5 + 96.8 + 97.0 + 400.2) / 4 = 172.625`, not the three-lap mean. -/
theorem C2_outlier_counterexample :
    bestLap [⟨193/2⟩, ⟨484/5⟩, ⟨97⟩, ⟨2001/5⟩] = some (193/2) ∧
      averageLap [⟨193/2⟩, ⟨484/5⟩, ⟨97⟩, ⟨2001/5⟩] = some (1381/8) ∧
      ¬((1381/8 : ℚ) = (193/2 + 484/5 + 97) / 3) := by
  have hlt : lapTimes [⟨193/2⟩, ⟨484/5⟩, ⟨97⟩, ⟨2001/5⟩] =
      [193/2, 484/5, 97, 2001/5] := by
    norm_num [lapTimes, List.filter]
  refine ⟨?_, ?_, by norm_num⟩
  · rw [bestLap, hlt]
    norm_num [mathMin, min_def]
  · rw [averageLap.eq_def, hlt]
    norm_num

/-- C2 (amended): on laps `[96.5, 96.8, 97.0, 400.2]` the code computes
`best_lap = 96.5`; the `400.2` lap passes the `t > 0` validity filter, so the
average is taken over all four laps and equals `172.625` — no outlier
exclusion is performed. -/
theorem C2_amended_stats :
    lapTimes [⟨193/2⟩, ⟨484/5⟩, ⟨97⟩, ⟨2001/5⟩] = [193/2, 484/5, 97, 2001/5] ∧
      bestLap [⟨193/2⟩, ⟨484/5⟩, ⟨97⟩, ⟨2001/5⟩] = some (193/2) ∧
      averageLap [⟨193/2⟩, ⟨484/5⟩, ⟨97⟩, ⟨2001/5⟩] = some (1381/8) := by
  have hlt : lapTimes [⟨193/2⟩, ⟨484/5⟩, ⟨97⟩, ⟨2001/5⟩] =
      [193/2, 484/5, 97, 2001/5] := by
    norm_num [lapTimes, List.filter]
  refine ⟨hlt, ?_, ?_⟩
  · rw [bestLap, hlt]
    norm_num [mathMin, min_def]
  · rw [averageLap.eq_def, hlt]
    norm_num

/-- A telemetry position point of a racing-line result (`p.lat`, `p.lon`). -/
structure TelemetryPoint where
  lat : ℚ
  lon : ℚ

/-- `racingLine?.current_line?.filter(p => p.lat !== 0 && p.lon !== 0 &&
Math.abs(p.lat) < 90 && Math.abs(p.lon) < 180).map(p => { ... if
(Math.abs(lat) > 90 || Math.abs(lon) > 180) [lat, lon] = [lon, lat]; return
[lat, lon] })` from `DriverAnalysis.jsx` (the `|| []` default is modelled by
passing the empty list). -/
def currentLineCoords (current_line : List TelemetryPoint) : List (ℚ × ℚ) :=
  (current_line.filter fun p =>
      decide (p.lat ≠ 0 ∧ p.lon ≠ 0 ∧ |p.lat| < 90 ∧ |p.lon| < 180)).map
    fun p => if 90 < |p.lat| ∨ 180 < |p.lon| then (p.lon, p.lat) else (p.lat, p.lon)

/-- The identically written pipeline for `racingLine?.optimal_line` in
`DriverAnalysis.jsx`. -/
def optimalLineCoords (optimal_line : List TelemetryPoint) : List (ℚ × ℚ) :=
  (optimal_line.filter fun p =>
      decide (p.lat ≠ 0 ∧ p.lon ≠ 0 ∧ |p.lat| < 90 ∧ |p.lon| < 180)).map
    fun p => if 90 < |p.lat| ∨ 180 < |p.lon| then (p.lon, p.lat) else (p.lat, p.lon)

lemma optimalLineCoords_eq (line : List TelemetryPoint) :
    optimalLineCoords line = currentLineCoords line := rfl

lemma currentLineCoords_no_swap (line : List TelemetryPoint) :
    currentLineCoords line =
      (line.filter fun p =>
          decide (p.lat ≠ 0 ∧ p.lon ≠ 0 ∧ |p.lat| < 90 ∧ |p.lon| < 180)).map
        fun p => (p.lat, p.lon) := by
  unfold currentLineCoords
  apply List.map_congr_left
  intro p hp
  obtain ⟨-, -, hlat, hlon⟩ := of_decide_eq_true (List.mem_filter.mp hp).2
  have hno : ¬(90 < |p.lat| ∨ 180 < |p.lon|) := by
    push_neg
    exact ⟨hlat.le, hlon.le⟩
  exact if_neg hno

lemma mem_currentLineCoords_valid (line : List TelemetryPoint) (c : ℚ × ℚ)
    (hc : c ∈ currentLineCoords line) :
    ¬((c.1 = 0 ∧ c.2 = 0) ∨ 90 < |c.1| ∨ 180 < |c.2|) := by
  rw [currentLineCoords_no_swap] at hc
  obtain ⟨p, hp, hpc⟩ := List.mem_map.mp hc
  obtain ⟨hlat0, -, hlat, hlon⟩ := of_decide_eq_true (List.mem_filter.mp hp).2
  rw [← hpc]
  push_neg
  refine ⟨fun h1 => absurd h1 hlat0, hlat.le, hlon.le⟩

/-- C3: the coordinate filtering applied before any rendering removes every
invalid fix, so the rendered `current_line` (and `optimal_line`) coordinate
sequence never contains a point with `(lat, lon) = (0, 0)` nor a point with
`|lat| > 90` or `|lon| > 180`. -/
theorem C3_rendered_lines_have_no_invalid_fix
    (cur opt : List TelemetryPoint) (c : ℚ × ℚ)
    (h : c ∈ currentLineCoords cur ∨ c ∈ optimalLineCoords opt) :
    ¬((c.1 = 0 ∧ c.2 = 0) ∨ 90 < |c.1| ∨ 180 < |c.2|) := by
  rcases h with hc | hc
  · exact mem_currentLineCoords_valid cur c hc
  · rw [optimalLineCoords_eq] at hc
    exact mem_currentLineCoords_valid opt c hc

theorem C3_rendered_lines_have_no_invalid_fix_witness :
    (((10 : ℚ), (20 : ℚ)) ∈ currentLineCoords [⟨10, 20⟩] ∨
        ((10 : ℚ), (20 : ℚ)) ∈ optimalLineCoords []) ∧
      ¬(((((10 : ℚ), (20 : ℚ)).1 = 0 ∧ (((10 : ℚ), (20 : ℚ))).2 = 0) ∨
          90 < |(((10 : ℚ), (20 : ℚ))).1| ∨ 180 < |(((10 : ℚ), (20 : ℚ))).2|)) :=
  have hmem : ((10 : ℚ), (20 : ℚ)) ∈ currentLineCoords [⟨10, 20⟩] := by
    norm_num [currentLineCoords, List.filter]
  ⟨Or.inl hmem,
    C3_rendered_lines_have_no_invalid_fix [⟨10, 20⟩] [] (10, 20) (Or.inl hmem)⟩

/-- C9: the coordinate-swap branch is unreachable — every point that passes
the validity filter satisfies `|lat| < 90` and `|lon| < 180`, so the guard
`|lat| > 90 || |lon| > 180` is false and the emitted pair is exactly
`[lat, lon]`. -/
theorem C9_swap_branch_unreachable (line : List TelemetryPoint) :
    currentLineCoords line =
      (line.filter fun p =>
          decide (p.lat ≠ 0 ∧ p.lon ≠ 0 ∧ |p.lat| < 90 ∧ |p.lon| < 180)).map
        fun p => (p.lat, p.lon) :=
  currentLineCoords_no_swap line

/-- One row of the comparison output, shaped like `DriverSummary` (§3):
sentinel/null statistics are `none`. -/
structure DriverSummaryRow where
  driver_id : String
  best_lap : Option ℚ
  avg_lap : Option ℚ
  consistency : Option ℚ
  lap_count : Nat

/-- Modelled from the spec: dispersion measure of a list of lap times used for
`consistency` (§4.1 allows standard deviation "or similar dispersion measure";
the variance of the valid lap times is used here so the computation stays in
`ℚ`). -/
def dispersion (ts : List ℚ) : ℚ :=
  let mean := ts.sum / (ts.length : ℚ)
  (ts.map fun t => (t - mean) ^ 2).sum / (ts.length : ℚ)

/-- Modelled from the spec: one row produced by the backend Comparison Engine
(`backend/services/analytics.py` behind `GET /api/race/{race_id}/comparison`,
which is not among the available sources). Per §4.1/§4.3/§7 the statistics are
computed over the valid (`lap_time > 0`) lap times; a driver with no valid
laps gets sentinel/null statistics rather than being dropped; `lap_count`
counts the recorded laps. -/
def comparisonRow (getLaps : String → List LapRecord) (i : String) :
    DriverSummaryRow :=
  let laps := getLaps i
  let valid := (laps.map fun l => l.time).filter fun t => decide (0 < t)
  { driver_id := i
    best_lap := mathMin valid
    avg_lap :=
      match valid with
      | [] => none
      | t :: ts => some ((t :: ts).sum / ((t :: ts).length : ℚ))
    consistency :=
      match valid with
      | [] => none
      | t :: ts => some (dispersion (t :: ts))
    lap_count := laps.length }

/-- Modelled from the spec: the backend Comparison Engine's output for an
ordered list of requested driver ids — one `DriverSummary`-shaped row per
requested driver, in request order (§4.3). -/
def comparisonRows (getLaps : String → List LapRecord) (ids : List String) :
    List DriverSummaryRow :=
  ids.map (comparisonRow getLaps)

/-- C4: for every comparison request over an ordered list of at least two
driver ids, the output has exactly one row per requested driver, in request
order; a driver with no valid lap data still appears, with null statistics,
rather than being dropped. -/
theorem C4_comparison_rows_order_and_count
    (getLaps : String → List LapRecord) (ids : List String)
    (_h : 2 ≤ ids.length) :
    (comparisonRows getLaps ids).length = ids.length ∧
      (comparisonRows getLaps ids).map (fun r => r.driver_id) = ids ∧
      ∀ i ∈ ids,
        ((getLaps i).map fun l => l.time).filter (fun t => decide (0 < t)) = [] →
          comparisonRow getLaps i ∈ comparisonRows getLaps ids ∧
            (comparisonRow getLaps i).driver_id = i ∧
            (comparisonRow getLaps i).best_lap = none ∧
            (comparisonRow getLaps i).avg_lap = none ∧
            (comparisonRow getLaps i).consistency = none := by
  refine ⟨List.length_map ids (comparisonRow getLaps), ?_, ?_⟩
  · rw [comparisonRows, List.map_map]
    have : ((fun r : DriverSummaryRow => r.driver_id) ∘ comparisonRow getLaps) =
        fun i => i := rfl
    rw [this]
    exact List.map_id ids
  · intro i hi hvalid
    refine ⟨List.mem_map_of_mem (comparisonRow getLaps) hi, rfl, ?_, ?_, ?_⟩
    · show mathMin (((getLaps i).map fun l => l.time).filter
        fun t => decide (0 < t)) = none
      rw [hvalid]
      rfl
    · show (match ((getLaps i).map fun l => l.time).filter
          (fun t => decide (0 < t)) with
        | [] => none
        | t :: ts => some ((t :: ts).sum / ((t :: ts).length : ℚ))) = none
      rw [hvalid]
    · show (match ((getLaps i).map fun l => l.time).filter
          (fun t => decide (0 < t)) with
        | [] => none
        | t :: ts => some (dispersion (t :: ts))) = none
      rw [hvalid]

theorem C4_comparison_rows_order_and_count_witness :
    2 ≤ (["13", "22"] : List String).length ∧
      (comparisonRows (fun _ => []) ["13", "22"]).map (fun r => r.driver_id) =
        ["13", "22"] :=
  ⟨by norm_num,
    (C4_comparison_rows_order_and_count (fun _ => []) ["13", "22"]
      (by norm_num)).2.1⟩

/-- Outcome of the frontend comparison handler: either the explicit
insufficient-drivers alert (and early return, no request), or a comparison
request for the selected ids. -/
inductive CompareOutcome where
  | insufficientDrivers : CompareOutcome
  | requested : List String → CompareOutcome
deriving DecidableEq

/-- `handleCompare` from `DriverAnalysis.jsx`: `if (compareDrivers.length < 2)
{ alert('Please select at least 2 drivers to compare'); return }` before any
fetch of the comparison endpoint. -/
def handleCompare (compareDrivers : List String) : CompareOutcome :=
  if compareDrivers.length < 2 then CompareOutcome.insufficientDrivers
  else CompareOutcome.requested compareDrivers

/-- C5: a comparison request with fewer than two selected drivers performs no
comparison computation and reports the explicit insufficient-drivers error —
no request for any driver list is ever issued in that case. -/
theorem C5_insufficient_drivers_rejected (compareDrivers : List String)
    (h : compareDrivers.length < 2) :
    handleCompare compareDrivers = CompareOutcome.insufficientDrivers ∧
      ∀ ids, handleCompare compareDrivers ≠ CompareOutcome.requested ids := by
  have heq : handleCompare compareDrivers = CompareOutcome.insufficientDrivers :=
    if_pos h
  exact ⟨heq, fun ids hcon => by rw [heq] at hcon; cases hcon⟩

theorem C5_insufficient_drivers_rejected_witness :
    (["13"] : List String).length < 2 ∧
      handleCompare ["13"] = CompareOutcome.insufficientDrivers :=
  ⟨by norm_num, (C5_insufficient_drivers_rejected ["13"] (by norm_num)).1⟩

/-- Outcome of the frontend strategy boundary: either the strategy state is
cleared (`setStrategy(null)` and early return, no request), or a pit-stop
strategy request carrying the three parameters is issued. -/
inductive StrategyOutcome where
  | cleared : StrategyOutcome
  | requested : Int → Int → ℚ → StrategyOutcome
deriving DecidableEq

/-- `calculateStrategy` from `StrategyCalculator.jsx`: `if (currentLap >=
totalLaps) { setStrategy(null); return }`, otherwise fetch the strategy
endpoint with `current_lap`, `total_laps` and `tire_degradation_rate`. -/
def calculateStrategy (currentLap totalLaps : Int)
    (tireDegradationRate : ℚ) : StrategyOutcome :=
  if currentLap ≥ totalLaps then StrategyOutcome.cleared
  else StrategyOutcome.requested currentLap totalLaps tireDegradationRate

/-- C6: with `current_lap >= total_laps` no strategy computation is performed:
the strategy output is cleared to null and no request is issued, so nothing
can error or crash. -/
theorem C6_not_applicable_clears_strategy (currentLap totalLaps : Int)
    (r : ℚ) (h : totalLaps ≤ currentLap) :
    calculateStrategy currentLap totalLaps r = StrategyOutcome.cleared ∧
      ∀ cl tl q, calculateStrategy currentLap totalLaps r ≠
        StrategyOutcome.requested cl tl q := by
  have heq : calculateStrategy currentLap totalLaps r = StrategyOutcome.cleared :=
    if_pos h
  exact ⟨heq, fun cl tl q hcon => by rw [heq] at hcon; cases hcon⟩

theorem C6_not_applicable_clears_strategy_witness :
    (27 : Int) ≤ 27 ∧
      calculateStrategy 27 27 (1/50) = StrategyOutcome.cleared :=
  ⟨le_refl 27, (C6_not_applicable_clears_strategy 27 27 (1/50) (le_refl 27)).1⟩

/-- The Current Lap input's `onChange`:
`setCurrentLap(parseInt(e.target.value) || 1)`. An unparsable value
(JavaScript `NaN`) is modelled as `none`; `NaN` and `0` are falsy, so both
fall back to `1`. -/
def currentLapOnChange (parsed : Option Int) : Int :=
  match parsed with
  | none => 1
  | some v => if v = 0 then 1 else v

/-- The Total Laps input's `onChange`:
`setTotalLaps(parseInt(e.target.value) || 27)`. -/
def totalLapsOnChange (parsed : Option Int) : Int :=
  match parsed with
  | none => 27
  | some v => if v = 0 then 27 else v

/-- The Tire Degradation Rate input's `onChange`:
`setDegradationRate((parseFloat(e.target.value) || 0) / 100)` — the field is
entered as percent and divided by 100. -/
def degradationRateOnChange (parsed : Option ℚ) : ℚ :=
  (match parsed with
   | none => 0
   | some v => if v = 0 then 0 else v) / 100

/-- The complete frontend boundary for a strategy request: the state set by
the three input handlers fed into `calculateStrategy`. -/
def strategyBoundary (lapInput totalInput : Option Int)
    (rateInput : Option ℚ) : StrategyOutcome :=
  calculateStrategy (currentLapOnChange lapInput) (totalLapsOnChange totalInput)
    (degradationRateOnChange rateInput)

/-- C7 counterexample: typing `10` (percent) into the degradation-rate field
yields `tire_degradation_rate = 0.1`, outside the contract range `(0, 0.05]`,
yet with `current_lap = 10 < total_laps = 27` the boundary issues the engine
request with that out-of-range value instead of rejecting it. -/
theorem C7_out_of_range_rate_reaches_engine :
    strategyBoundary (some 10) (some 27) (some 10) =
      StrategyOutcome.requested 10 27 (1/10) ∧
      ¬((1 : ℚ)/10 ≤ 1/20) := by
  constructor
  · rw [strategyBoundary, currentLapOnChange, totalLapsOnChange,
      degradationRateOnChange]
    norm_num [calculateStrategy]
  · norm_num

/-- C7 (amended): the boundary rejects a strategy request only when
`current_lap >= total_laps`; whenever `current_lap < total_laps` the request
is issued carrying exactly the values produced by the input handlers — which
only coerce unparsable/zero current-lap input to 1, unparsable/zero total-laps
input to 27 and unparsable rate input to 0 — so `tire_degradation_rate`
outside `(0, 0.05]` and `current_lap < 1` can reach the engine unrejected. -/
theorem C7_amended_boundary_passes_values (lapInput totalInput : Option Int)
    (rateInput : Option ℚ)
    (h : currentLapOnChange lapInput < totalLapsOnChange totalInput) :
    strategyBoundary lapInput totalInput rateInput =
      StrategyOutcome.requested (currentLapOnChange lapInput)
        (totalLapsOnChange totalInput) (degradationRateOnChange rateInput) := by
  rw [strategyBoundary, calculateStrategy, if_neg (not_le.mpr h)]

theorem C7_amended_boundary_passes_values_witness :
    currentLapOnChange (some (-5)) < totalLapsOnChange (some 27) ∧
      strategyBoundary (some (-5)) (some 27) (some 10) =
        StrategyOutcome.requested (currentLapOnChange (some (-5)))
          (totalLapsOnChange (some 27)) (degradationRateOnChange (some 10)) :=
  ⟨by norm_num [currentLapOnChange, totalLapsOnChange],
    C7_amended_boundary_passes_values (some (-5)) (some 27) (some 10)
      (by norm_num [currentLapOnChange, totalLapsOnChange])⟩

/-- `lapTimesData` from the Dashboard's `DriverView`:
`analysis?.lap_count ? Array.from({ length: Math.min(10, analysis.lap_count) },
(_, i) => ({ lap: i + 1, time: (analysis.avg_lap_time || 98.5) +
(Math.random() - 0.5) * 1 })) : []`. The successive `Math.random()` draws are
modelled by an explicit stream `random : Nat → ℚ` of values in `[0, 1)`. -/
def lapTimesData (lap_count : Nat) (avg_lap_time : Option ℚ)
    (random : Nat → ℚ) : List (Nat × ℚ) :=
  if lap_count = 0 then []
  else
    (List.range (min 10 lap_count)).map fun i =>
      (i + 1,
        (match avg_lap_time with
         | none => 197/2
         | some v => if v = 0 then 197/2 else v) + (random i - 1/2) * 1)

/-- C8: the DriverView lap-times chart is not deterministic in its inputs —
for the same analysis data (`lap_count = 10`, `avg_lap_time = 98`) two runs
whose `Math.random()` draws differ (here constant `0` versus constant `1/2`)
produce different derived outputs. -/
theorem C8_lap_times_chart_depends_on_random_draws :
    lapTimesData 10 (some 98) (fun _ => 0) ≠
      lapTimesData 10 (some 98) (fun _ => 1/2) := by
  intro h
  rw [lapTimesData, lapTimesData] at h
  have hr : List.range (min 10 10) = [0, 1, 2, 3, 4, 5, 6, 7, 8, 9] := rfl
  rw [hr] at h
  norm_num [List.map] at h

/-- `'0'.repeat(k)` prefixing of JavaScript `String.prototype.padStart(6, '0')`. -/
def padStart6 (s : String) : String :=
  if 6 ≤ s.length then s
  else String.mk (List.replicate (6 - s.length) '0') ++ s

/-- Decimal rendering of `n` with at least three digits, for the fractional
part of `toFixed(3)`. -/
def pad3 (n : Nat) : String :=
  if n < 10 then "00" ++ toString n
  else if n < 100 then "0" ++ toString n
  else toString n

/-- JavaScript `x.toFixed(3)` for non-negative `x` (the only use sites apply
it to `seconds % 60 ∈ [0, 60)`): round half-up to three decimals and render
with exactly three fractional digits. -/
def jsToFixed3 (x : ℚ) : String :=
  let n : Int := Int.floor (x * 1000 + 1/2)
  toString (n / 1000) ++ "." ++ pad3 (n % 1000).toNat

/-- `formatLapTime` local to `DriverAnalysis.jsx`: `if (!seconds || seconds
=== 0) return 'N/A'` then `${minutes}:${secs.padStart(6, '0')}` with
`minutes = Math.floor(seconds / 60)` and `secs = (seconds % 60).toFixed(3)`.
A `null`/`undefined` argument is modelled as `none`. -/
def formatLapTime_DriverAnalysis (seconds : Option ℚ) : String :=
  match seconds with
  | none => "N/A"
  | some s =>
    if s = 0 then "N/A"
    else
      toString (Int.floor (s / 60)) ++ ":" ++
        padStart6 (jsToFixed3 (s - 60 * Int.floor (s / 60)))

/-- `formatLapTime` local to `RaceInsights.jsx` — textually the same
definition as the one in `DriverAnalysis.jsx`. -/
def formatLapTime_RaceInsights (seconds : Option ℚ) : String :=
  match seconds with
  | none => "N/A"
  | some s =>
    if s = 0 then "N/A"
    else
      toString (Int.floor (s / 60)) ++ ":" ++
        padStart6 (jsToFixed3 (s - 60 * Int.floor (s / 60)))

/-- `formatLapTime` local to the Dashboard component (concatenated in
`DriverAnalysis.jsx`): the same formatting with no `N/A` guard, always applied
to a number. -/
def formatLapTime_Dashboard (seconds : ℚ) : String :=
  toString (Int.floor (seconds / 60)) ++ ":" ++
    padStart6 (jsToFixed3 (seconds - 60 * Int.floor (seconds / 60)))

/-- C10: the three local `formatLapTime` helpers compute the same `M:SS.mmm`
string on every strictly positive input; on `0`, `null` or `undefined`, the
DriverAnalysis and RaceInsights helpers both return the sentinel `"N/A"`. -/
theorem C10_format_lap_time_helpers_agree :
    (∀ s : ℚ, 0 < s →
        formatLapTime_DriverAnalysis (some s) = formatLapTime_Dashboard s ∧
          formatLapTime_RaceInsights (some s) = formatLapTime_Dashboard s) ∧
      formatLapTime_DriverAnalysis none = "N/A" ∧
      formatLapTime_RaceInsights none = "N/A" ∧
      formatLapTime_DriverAnalysis (some 0) = "N/A" ∧
      formatLapTime_RaceInsights (some 0) = "N/A" := by
  refine ⟨?_, rfl, rfl, ?_, ?_⟩
  · intro s hs
    have hne : s ≠ 0 := hs.ne'
    constructor
    · simp only [formatLapTime_DriverAnalysis, formatLapTime_Dashboard,
        if_neg hne]
    · simp only [formatLapTime_RaceInsights, formatLapTime_Dashboard,
        if_neg hne]
  · simp [formatLapTime_DriverAnalysis]
  · simp [formatLapTime_RaceInsights]

theorem C10_format_lap_time_helpers_agree_witness :
    (0 : ℚ) < 90 ∧
      formatLapTime_DriverAnalysis (some 90) = formatLapTime_Dashboard 90 :=
  ⟨by norm_num, (C10_format_lap_time_helpers_agree.1 90 (by norm_num)).1⟩

end GrCup
